import Mathlib

/-!
Shallow embedding of the aclarador core (multi-pass refinement controller,
quality analyzer, convergence detector) translated from
`multi_pass_processor.py` and `quality_analyzer.py`.

Modelling conventions:
* Python floats are modelled as exact rationals (`ℚ`); all the constants in
  the source are short decimals, represented exactly.
* Python strings are Lean `String`s; character-level scans work on
  `List Char` (`String.toList`), which matches Python's per-character view.
* Python code that can raise (`ZeroDivisionError` in
  `_calculate_convergence_metrics`) is embedded with `Option`, `none`
  standing for the raised exception propagating out of the call.
* Wall-clock time (`time.time()` differences) is irrelevant to every
  property below and is embedded as the constant `0`.
* `math.sqrt` reaches the core only through `statistics.stdev` inside
  `_analyze_style_consistency`; its (irrational) value is modelled by an
  explicit function parameter `sqrtQ : ℚ → ℚ` applied to the exactly
  computed sample variance.  No verified property depends on its value.
-/

/-- Python `str.split()` / `str.strip()` whitespace characters (ASCII set). -/
def pyIsSpace (c : Char) : Bool :=
  c = ' ' || c = '\t' || c = '\n' || c = '\r' || c = Char.ofNat 11 || c = Char.ofNat 12

/-- Word characters for the `\w` class and `\b` boundaries of the Spanish
regexes in `quality_analyzer.py`: ASCII letters, digits, underscore, and the
accented letters occurring in the source's patterns and texts. -/
def isWordChar (c : Char) : Bool :=
  c.isAlpha || c.isDigit || c = '_' ||
    ['á', 'é', 'í', 'ó', 'ú', 'ü', 'ñ', 'Á', 'É', 'Í', 'Ó', 'Ú', 'Ü', 'Ñ'].contains c

/-- Python `str.lower` on the characters that occur in the source's data:
ASCII plus the accented Spanish uppercase letters. -/
def toLowerCh (c : Char) : Char :=
  if c = 'Á' then 'á' else if c = 'É' then 'é' else if c = 'Í' then 'í'
  else if c = 'Ó' then 'ó' else if c = 'Ú' then 'ú' else if c = 'Ü' then 'ü'
  else if c = 'Ñ' then 'ñ' else c.toLower

def lowerList (l : List Char) : List Char := l.map toLowerCh

/-- Python `str.strip()`: remove leading and trailing whitespace. -/
def pyStripList (l : List Char) : List Char :=
  ((l.dropWhile pyIsSpace).reverse.dropWhile pyIsSpace).reverse

/-- Terminal punctuation of the sentence splitter `re.split(r'[.!?]+', text)`. -/
def isTermCh (c : Char) : Bool := c = '.' || c = '!' || c = '?'

/-- `re.split(r'[.!?]+', text)`: split on maximal runs of terminal
punctuation (fuel-driven scan; fuel `length + 1` always suffices since every
step consumes at least one character). -/
def splitTermFuel : Nat → List Char → List Char → List (List Char)
  | 0, acc, _ => [acc.reverse]
  | _ + 1, acc, [] => [acc.reverse]
  | fuel + 1, acc, c :: rest =>
    if isTermCh c then acc.reverse :: splitTermFuel fuel [] (rest.dropWhile isTermCh)
    else splitTermFuel fuel (c :: acc) rest

/-- Python `str.split()` (no argument): split on whitespace runs, dropping
empty pieces. -/
def wsSplitAux (acc : List Char) : List Char → List (List Char)
  | [] => if acc = [] then [] else [acc.reverse]
  | c :: rest =>
    if pyIsSpace c then
      if acc = [] then wsSplitAux [] rest else acc.reverse :: wsSplitAux [] rest
    else wsSplitAux (c :: acc) rest

def pySplit (s : String) : List String :=
  (wsSplitAux [] s.toList).map String.mk

/-- Python `text.split('\n\n')` used for paragraphs (fuel-driven scan). -/
def splitDoubleNl : Nat → List Char → List Char → List (List Char)
  | 0, acc, _ => [acc.reverse]
  | _ + 1, acc, [] => [acc.reverse]
  | fuel + 1, acc, c :: rest =>
    if ['\n', '\n'].isPrefixOf (c :: rest) then
      acc.reverse :: splitDoubleNl fuel [] ((c :: rest).drop 2)
    else splitDoubleNl fuel (c :: acc) rest

/-- Python `sub in s` substring containment. -/
def containsSubAux (pat : List Char) : List Char → Bool
  | [] => pat.isPrefixOf []
  | c :: rest => pat.isPrefixOf (c :: rest) || containsSubAux pat rest

/-- Python `s.count(sub)`: non-overlapping left-to-right occurrence count
(fuel-driven; `sub` is non-empty at every call site). -/
def countSubOcc (pat : List Char) : Nat → List Char → Nat
  | 0, _ => 0
  | _ + 1, [] => 0
  | fuel + 1, c :: rest =>
    if pat.isPrefixOf (c :: rest) then 1 + countSubOcc pat fuel ((c :: rest).drop pat.length)
    else countSubOcc pat fuel rest

/-- Maximal runs of word characters inside a token (used to embed the
`\w{15,}` and suffix regexes of `complex_vocabulary`). -/
def wordRunsAux (acc : List Char) : List Char → List (List Char)
  | [] => if acc = [] then [] else [acc.reverse]
  | c :: rest =>
    if isWordChar c then wordRunsAux (c :: acc) rest
    else if acc = [] then wordRunsAux [] rest
    else acc.reverse :: wordRunsAux [] rest

/-- Word boundary holds after prefix `p` of `l`: end of string or a
non-word character follows. All embedded phrases end in a word character. -/
def boundaryAfter (p l : List Char) : Bool :=
  match l.drop p.length with
  | [] => true
  | c :: _ => !isWordChar c

def phraseAt (p l : List Char) : Bool := p.isPrefixOf l && boundaryAfter p l

/-- `re.search(r'\b(p₁|p₂|…)\b', s)` for a list of literal alternatives, all
of which start and end with word characters: some position with a non-word
(or absent) character before it starts one of the phrases, followed by a
word boundary. `prevW` tracks whether the previous character was a word
character. -/
def searchWBAux (phrases : List (List Char)) : Bool → List Char → Bool
  | _, [] => false
  | prevW, c :: rest =>
    (!prevW && phrases.any fun p => phraseAt p (c :: rest)) ||
      searchWBAux phrases (isWordChar c) rest

/-- Case-sensitive word-bounded alternation search (tense markers). -/
def searchWB (phrases : List String) (s : String) : Bool :=
  searchWBAux (phrases.map String.toList) false s.toList

/-- Case-insensitive (`re.IGNORECASE`) word-bounded alternation search; the
source's phrase lists are already lowercase. -/
def searchCI (phrases : List String) (s : String) : Bool :=
  searchWBAux (phrases.map String.toList) false (lowerList s.toList)

/-- `statistics.mean` over rationals. Call sites in the embedding only reach
it with non-empty lists, mirroring Python (`statistics.mean` raises on an
empty list). -/
def listMean (l : List ℚ) : ℚ := l.sum / (l.length : ℚ)

/-- `statistics.stdev`'s radicand: the exact sample variance
`Σ (x - x̄)² / (n - 1)`; only evaluated with `n ≥ 2` in the source. -/
def sampleVariance (l : List ℚ) : ℚ :=
  (l.map fun x => (x - listMean l) ^ 2).sum / ((l.length : ℚ) - 1)

/-- One improvement record produced by the pipeline: a Python dict whose
`pass_number` key is absent until `_compile_multi_pass_results` writes it;
the remaining payload of the dict is abstracted as `detail`. -/
structure Improvement where
  pass_number : Option Nat
  detail : String
deriving DecidableEq

/-- `context['agent_results']['seo']` as used by `_analyze_seo_quality`:
`balance_score` is `none` when the nested `clarity_balance` lookup falls
back to its `0.7` default. -/
structure SeoResults where
  balance_score : Option ℚ
deriving DecidableEq

/-- `context['agent_results']`: `size` is the number of keys of the dict
(`len(context['agent_results'])` in `_calculate_confidence_level`),
`grammar_corrections` is `agent_results.get('grammar', {}).get('corrections', [])`,
and `seo` is `agent_results.get('seo', {})` with `none` for an absent or
empty (falsy) dict. -/
structure AgentResults where
  size : Nat
  grammar_corrections : List String
  seo : Option SeoResults
deriving DecidableEq

/-- The `context`/`results` dict handed to the quality analyzer. A field is
`none` when the corresponding key is absent; an empty or `None` dict at a
call site is modelled as `Option Context` being `none` there. -/
structure Context where
  agent_results : Option AgentResults
  improvements : Option (List Improvement)
  timestamp : Option ℚ
deriving DecidableEq

/-- The `QualityMetrics` dataclass: thirteen scalar fields. -/
structure QualityMetrics where
  readability_score : ℚ
  sentence_complexity : ℚ
  vocabulary_complexity : ℚ
  structure_score : ℚ
  clarity_score : ℚ
  coherence_score : ℚ
  precision_score : ℚ
  grammar_accuracy : ℚ
  style_consistency : ℚ
  seo_optimization : ℚ
  overall_quality : ℚ
  confidence_level : ℚ
  improvement_potential : ℚ
deriving DecidableEq

/-- `QualityMetrics(0, 0, 0, 0, 0, 0, 0, 0, 0, 0, 0, 0, 0)` returned for
degenerate input. -/
def zeroMetrics : QualityMetrics := ⟨0, 0, 0, 0, 0, 0, 0, 0, 0, 0, 0, 0, 0⟩

/-- `QualityAnalyzer._extract_sentences`: split on `[.!?]+`, strip each
piece, keep the non-empty ones. -/
def extract_sentences (text : String) : List String :=
  ((splitTermFuel (text.length + 1) [] text.toList).map pyStripList).filterMap
    fun s => if s = [] then none else some (String.mk s)

/-- `spanish_complexity_indicators['complex_structures']`, first pattern's
alternatives. -/
def complexStructures1 : List String :=
  ["no obstante", "sin embargo", "por consiguiente", "a pesar de que", "dado que"]

/-- Second `complex_structures` pattern's alternatives. -/
def complexStructures2 : List String := ["cuyo", "cuya", "cuyos", "cuyas"]

/-- Third `complex_structures` pattern's alternatives. -/
def complexStructures3 : List String :=
  ["mediante", "respecto a", "con respecto a", "en relación con"]

/-- Derivational suffixes of the second `complex_vocabulary` pattern
`\b\w*(ción|sión|idad|mente|ismo|ística)\b`. -/
def complexSuffixes : List String := ["ción", "sión", "idad", "mente", "ismo", "ística"]

/-- Auxiliaries of the `passive_voice` patterns
`\b(fue|fueron|ha sido|han sido|será|serán)\s+\w+ado\b` (and `…ido`). -/
def passiveAuxWords : List String := ["fue", "fueron", "ha sido", "han sido", "será", "serán"]

/-- Flow indicators checked by plain substring containment in
`_calculate_clarity_score`. -/
def flowIndicators : List String :=
  ["primero", "segundo", "además", "por tanto", "finalmente", "en conclusión"]

/-- Redundant phrases of `_calculate_precision_score`. -/
def redundantPhrases : List String :=
  ["muy muy", "que que", "el el", "la la", "de de",
   "completamente total", "absolutamente completo", "totalmente absoluto"]

/-- Filler words of `_calculate_precision_score`. -/
def fillerWords : List String :=
  ["realmente", "básicamente", "obviamente", "claramente", "simplemente"]

/-- Try to match one passive-voice pattern at the current position: word
boundary before (`!prevW`), an auxiliary alternative (tried in the
pattern's alternation order, mirroring regex backtracking), `\s+`, then a
maximal word-character run that is long enough for `\w+` plus the suffix
and ends with the suffix (`\w+ado\b` forces the run to be consumed whole).
Returns the remaining characters after the match. -/
def passiveMatchAt (auxs : List (List Char)) (sfx : List Char) (prevW : Bool)
    (l : List Char) : Option (List Char) :=
  if prevW then none
  else
    auxs.findSome? fun a =>
      if a.isPrefixOf l then
        let afterAux := l.drop a.length
        let sp := afterAux.takeWhile pyIsSpace
        if sp.length = 0 then none
        else
          let afterSp := afterAux.drop sp.length
          let run := afterSp.takeWhile isWordChar
          if sfx.length + 1 ≤ run.length ∧ sfx.isSuffixOf run then
            some (afterSp.drop run.length)
          else none
      else none

/-- `len(re.findall(pattern, text, re.IGNORECASE))` for one passive-voice
pattern: leftmost non-overlapping scan, resuming after each match
(fuel-driven; every step consumes at least one character). -/
def countPassiveAux (auxs : List (List Char)) (sfx : List Char) :
    Nat → Bool → List Char → Nat
  | 0, _, _ => 0
  | _ + 1, _, [] => 0
  | fuel + 1, prevW, c :: rest =>
    match passiveMatchAt auxs sfx prevW (c :: rest) with
    | some rest2 => 1 + countPassiveAux auxs sfx fuel true rest2
    | none => countPassiveAux auxs sfx fuel (isWordChar c) rest

/-- Occurrence count of one passive-voice pattern in `text` (the pattern's
suffix is `"ado"` or `"ido"`); `re.IGNORECASE` is embedded by lowering the
text, the pattern literals being lowercase already. -/
def countPassiveMatches (sfx : String) (text : String) : Nat :=
  let l := lowerList text.toList
  countPassiveAux (passiveAuxWords.map String.toList) sfx.toList l.length false l

/-- `QualityAnalyzer._count_spanish_syllables`'s vowel-group scan. -/
def syllAux : Bool → List Char → Nat
  | _, [] => 0
  | prevV, c :: rest =>
    if ['a', 'e', 'i', 'o', 'u', 'á', 'é', 'í', 'ó', 'ú', 'ü'].contains c then
      (if prevV then 0 else 1) + syllAux true rest
    else syllAux false rest

/-- `QualityAnalyzer._count_spanish_syllables`: vowel groups of the lowered
word, at least 1. -/
def count_spanish_syllables (word : String) : Nat :=
  max 1 (syllAux false (lowerList word.toList))

/-- `QualityAnalyzer._calculate_readability`. -/
def calculate_readability (sentences words : List String) : ℚ :=
  if sentences = [] ∨ words = [] then 0
  else
    let avg_sentence_length : ℚ := (words.length : ℚ) / (sentences.length : ℚ)
    let syllable_count : Nat := (words.map count_spanish_syllables).sum
    let avg_syllables_per_word : ℚ :=
      if words ≠ [] then (syllable_count : ℚ) / (words.length : ℚ) else 0
    if sentences ≠ [] ∧ words ≠ [] then
      let flesch := 20684 / 100 - (102 / 100) * avg_sentence_length
        - (60 / 100) * avg_syllables_per_word
      max 0 (min 100 flesch) / 100
    else 0

/-- Per-sentence body of `QualityAnalyzer._analyze_sentence_complexity`:
length-band factor, then `×0.8` for each of the three complex-structure
patterns that `re.search` finds in the sentence. -/
def sentenceComplexityOne (s : String) : ℚ :=
  let n := (pySplit s).length
  let c0 : ℚ := if 30 < n then 1 * (1 / 2) else if 20 < n then 1 * (7 / 10)
    else if n < 5 then 1 * (4 / 5) else 1
  let c1 := if searchCI complexStructures1 s then c0 * (4 / 5) else c0
  let c2 := if searchCI complexStructures2 s then c1 * (4 / 5) else c1
  if searchCI complexStructures3 s then c2 * (4 / 5) else c2

/-- `QualityAnalyzer._analyze_sentence_complexity`. -/
def analyze_sentence_complexity (sentences : List String) : ℚ :=
  if sentences = [] then 1
  else listMean (sentences.map sentenceComplexityOne)

/-- One word matches a `complex_vocabulary` pattern: `\w{15,}` (a run of 15
or more word characters) or a word-character run ending in one of the
derivational suffixes (`\b\w*(ción|…)\b`, case-insensitive). -/
def wordIsComplex (w : String) : Bool :=
  let runs := wordRunsAux [] (lowerList w.toList)
  runs.any (fun r => 15 ≤ r.length) ||
    runs.any fun r => complexSuffixes.any fun sfx => sfx.toList.isSuffixOf r

/-- `QualityAnalyzer._analyze_vocabulary_complexity`. -/
def analyze_vocabulary_complexity (words : List String) : ℚ :=
  if words = [] then 1
  else
    let complex_word_count := (words.filter wordIsComplex).length
    let complexity_ratio : ℚ := (complex_word_count : ℚ) / (words.length : ℚ)
    max (1 / 5) (1 - complexity_ratio * 2)

/-- `QualityAnalyzer._analyze_text_structure`. -/
def analyze_text_structure (text : String) (sentences : List String) : ℚ :=
  let paragraphs :=
    ((splitDoubleNl (text.length + 1) [] text.toList).map pyStripList).filter (· ≠ [])
  let s1 : ℚ :=
    if 1 < paragraphs.length then
      let avg_para_length : ℚ := (sentences.length : ℚ) / (paragraphs.length : ℚ)
      if 2 ≤ avg_para_length ∧ avg_para_length ≤ 8 then 1 * 1 else 1 * (4 / 5)
    else 1
  let sentence_lengths := sentences.map fun s => (pySplit s).length
  let s2 : ℚ :=
    if (sentence_lengths.dedup.length : ℚ) > (sentence_lengths.length : ℚ) * (3 / 10)
    then s1 * 1 else s1 * (9 / 10)
  min 1 s2

/-- `QualityAnalyzer._calculate_clarity_score`. -/
def calculate_clarity_score (text : String) (sentences : List String) : ℚ :=
  let passive_count := countPassiveMatches "ado" text + countPassiveMatches "ido" text
  let passive_ratio : ℚ :=
    if sentences ≠ [] then (passive_count : ℚ) / (sentences.length : ℚ) else 0
  let active_voice_score := max (1 / 2) (1 - passive_ratio)
  let lengths : List ℚ := sentences.map fun s => ((pySplit s).length : ℚ)
  let lengthFactors : List ℚ :=
    if lengths ≠ [] then
      [if 10 ≤ listMean lengths ∧ listMean lengths ≤ 25 then 1 else 7 / 10]
    else []
  let lowText := lowerList text.toList
  let flow_count :=
    (flowIndicators.filter fun i => containsSubAux i.toList lowText).length
  let flow_score : ℚ := min 1 ((flow_count : ℚ) / max 1 ((sentences.length : ℚ) / 5))
  let clarity_factors := active_voice_score :: lengthFactors ++ [flow_score]
  if clarity_factors ≠ [] then listMean clarity_factors else 1 / 2

/-- `QualityAnalyzer._calculate_coherence_score`. -/
def calculate_coherence_score (sentences : List String) : ℚ :=
  if sentences.length < 2 then 1
  else
    let all_words : List String := sentences.foldl
      (fun acc s => acc ++ ((pySplit s).filter fun w => 3 < w.length).map
        fun w => String.mk (lowerList w.toList)) []
    if all_words ≠ [] then
      let distinct := all_words.dedup
      let repeated_words := (distinct.filter fun w => 1 < all_words.count w).length
      let repetition_score : ℚ := min 1 ((repeated_words : ℚ) / (distinct.length : ℚ))
      min 1 (4 / 5 + repetition_score * (1 / 5))
    else min 1 (4 / 5)

/-- `QualityAnalyzer._calculate_precision_score`; only reached with a
non-empty word list (the analyzer's degenerate-input guard), so the
division by `len(words)` is safe there. -/
def calculate_precision_score (text : String) (words : List String) : ℚ :=
  let lowText := lowerList text.toList
  let redundancy_count :=
    (redundantPhrases.map fun p => countSubOcc p.toList (lowText.length + 1) lowText).sum
  let filler_count :=
    (words.filter fun w => fillerWords.contains (String.mk (lowerList w.toList))).length
  let total_issues := redundancy_count + filler_count
  max (1 / 2) (1 - (total_issues : ℚ) / (words.length : ℚ) * 10)

/-- `QualityAnalyzer._estimate_grammar_accuracy`. -/
def estimate_grammar_accuracy (text : String) (context : Option Context) : ℚ :=
  match context with
  | some c =>
    match c.agent_results with
    | some ar =>
      let corrections := ar.grammar_corrections
      if corrections ≠ [] then
        let error_density : ℚ :=
          (corrections.length : ℚ) / max 1 (((pySplit text).length : ℚ) / 10)
        max (3 / 10) (9 / 10 - error_density * (1 / 10))
      else 19 / 20
    | none => 4 / 5
  | none => 4 / 5

/-- Tense markers of `QualityAnalyzer._analyze_style_consistency`
(case-sensitive `re.search`). -/
def presentTenseMarkers : List String := ["es", "está", "tiene", "hace"]

def pastTenseMarkers : List String := ["fue", "estuvo", "tuvo", "hizo"]

def futureTenseMarkers : List String := ["será", "estará", "tendrá", "hará"]

/-- `QualityAnalyzer._analyze_style_consistency`; `sqrtQ` models the float
square root inside `statistics.stdev`, applied to the exact sample
variance. -/
def analyze_style_consistency (sqrtQ : ℚ → ℚ) (sentences : List String) : ℚ :=
  if sentences.length < 2 then 1
  else
    let lengths : List ℚ := sentences.map fun s => ((pySplit s).length : ℚ)
    let length_std : ℚ := if 1 < lengths.length then sqrtQ (sampleVariance lengths) else 0
    let m := listMean lengths
    let length_consistency := max (1 / 2) (1 - if 0 < m then length_std / m else 1)
    let present_tense := (sentences.filter (searchWB presentTenseMarkers)).length
    let past_tense := (sentences.filter (searchWB pastTenseMarkers)).length
    let future_tense := (sentences.filter (searchWB futureTenseMarkers)).length
    let total_tense := present_tense + past_tense + future_tense
    let tense_consistency : ℚ :=
      if 0 < total_tense then
        ((max present_tense (max past_tense future_tense) : Nat) : ℚ) / (total_tense : ℚ)
      else 1
    (length_consistency + tense_consistency) / 2

/-- `QualityAnalyzer._analyze_seo_quality`. -/
def analyze_seo_quality (text : String) (context : Option Context) : ℚ :=
  let fromContext : Option ℚ :=
    match context with
    | some c =>
      match c.agent_results with
      | some ar =>
        match ar.seo with
        | some s => some (s.balance_score.getD (7 / 10))
        | none => none
      | none => none
    | none => none
  match fromContext with
  | some b => b
  | none =>
    let word_count := (pySplit text).length
    if 300 ≤ word_count ∧ word_count ≤ 2000 then 4 / 5
    else if word_count < 100 then 2 / 5
    else 3 / 5

/-- `QualityAnalyzer._calculate_overall_quality`: the call site passes the
dict `{readability, clarity, grammar, structure, coherence}`, every key of
which is in the weight table, so the loop accumulates all five weighted
values and `total_weight = 0.25 + 0.25 + 0.20 + 0.15 + 0.15`. -/
def calculate_overall_quality (readability clarity grammar structureScore coherence : ℚ) : ℚ :=
  let total_weight : ℚ := 1 / 4 + 1 / 4 + 1 / 5 + 3 / 20 + 3 / 20
  let weighted_score : ℚ := readability * (1 / 4) + clarity * (1 / 4) + grammar * (1 / 5)
    + structureScore * (3 / 20) + coherence * (3 / 20)
  if 0 < total_weight then weighted_score / total_weight else 1 / 2

/-- `QualityAnalyzer._calculate_confidence_level`. -/
def calculate_confidence_level (text : String) (context : Option Context) : ℚ :=
  let word_count := (pySplit text).length
  let c1 : ℚ := 7 / 10
  let c2 : ℚ := if 100 < word_count then c1 + 1 / 5
    else if word_count < 20 then c1 - 1 / 5 else c1
  let c3 : ℚ :=
    match context with
    | some c =>
      match c.agent_results with
      | some ar => c2 + min (1 / 5) ((ar.size : ℚ) * (1 / 20))
      | none => c2
    | none => c2
  min 1 (max (3 / 10) c3)

/-- `QualityAnalyzer._calculate_improvement_potential`. -/
def calculate_improvement_potential (current_quality : ℚ) (context : Option Context) : ℚ :=
  let base_potential : ℚ := 1 - current_quality
  let adjusted : ℚ :=
    match context with
    | some c =>
      match c.improvements with
      | some imps => if 5 < imps.length then base_potential * (7 / 10) else base_potential
      | none => base_potential
    | none => base_potential
  min 1 adjusted

/-- `QualityAnalyzer.analyze_comprehensive_quality`. -/
def analyze_comprehensive_quality (sqrtQ : ℚ → ℚ) (text : String)
    (context : Option Context) : QualityMetrics :=
  let sentences := extract_sentences text
  let words := pySplit text
  if sentences = [] ∨ words = [] then zeroMetrics
  else
    let readability := calculate_readability sentences words
    let sentence_complexity := analyze_sentence_complexity sentences
    let vocabulary_complexity := analyze_vocabulary_complexity words
    let structure_score := analyze_text_structure text sentences
    let clarity_score := calculate_clarity_score text sentences
    let coherence_score := calculate_coherence_score sentences
    let precision_score := calculate_precision_score text words
    let grammar_accuracy := estimate_grammar_accuracy text context
    let style_consistency := analyze_style_consistency sqrtQ sentences
    let seo_optimization := analyze_seo_quality text context
    let overall_quality := calculate_overall_quality readability clarity_score
      grammar_accuracy structure_score coherence_score
    let confidence_level := calculate_confidence_level text context
    let improvement_potential := calculate_improvement_potential overall_quality context
    ⟨readability, sentence_complexity, vocabulary_complexity, structure_score,
      clarity_score, coherence_score, precision_score, grammar_accuracy,
      style_consistency, seo_optimization, overall_quality, confidence_level,
      improvement_potential⟩

/-- Last `n` elements of a list (Python `l[-n:]` for `n ≥ 1`). -/
def lastN (n : Nat) (l : List α) : List α := l.drop (l.length - n)

/-- Python `l[-1]` under a non-emptiness guard, with an irrelevant default. -/
def lastD (l : List ℚ) : ℚ := l.getD (l.length - 1) 0

/-- Maximum of a rational list (`max(...)`, only used non-empty). -/
def listMax (l : List ℚ) : ℚ := l.foldl max (l.headD 0)

/-- Minimum of a rational list (`min(...)`, only used non-empty). -/
def listMin (l : List ℚ) : ℚ := l.foldl min (l.headD 0)

/-- `convergence_thresholds` of `QualityAnalyzer.__init__`. -/
def minimalImprovementThreshold : ℚ := 1 / 50

def highQualityThreshold : ℚ := 17 / 20

def excellentQualityThreshold : ℚ := 19 / 20

def stabilityThreshold : ℚ := 1 / 100

/-- One entry of `ConvergenceDetector.improvement_history`
(`{'improvements': …, 'agent_results': …, 'timestamp': …}`). -/
structure ImprovementEntry where
  improvements : List Improvement
  agent_results : Option AgentResults
  timestamp : ℚ
deriving DecidableEq

/-- The five boolean indicators of `detect_convergence`'s
`convergence_analysis` dict. -/
structure ConvIndicators where
  quality_plateau : Bool
  minimal_improvement : Bool
  high_quality_reached : Bool
  stability_achieved : Bool
  improvement_saturation : Bool
deriving DecidableEq

/-- `sum(analysis.values())`: number of true indicators. -/
def indicatorCount (a : ConvIndicators) : Nat :=
  [a.quality_plateau, a.minimal_improvement, a.high_quality_reached,
    a.stability_achieved, a.improvement_saturation].count true

/-- `QualityAnalyzer._detect_quality_plateau`. -/
def detect_quality_plateau (quality_history : List QualityMetrics) : Bool :=
  if quality_history.length < 3 then false
  else
    let recent_scores := (lastN 3 quality_history).map (·.overall_quality)
    decide (listMax recent_scores - listMin recent_scores < stabilityThreshold)

/-- `QualityAnalyzer._detect_stability`. -/
def detect_stability (quality_history : List QualityMetrics) : Bool :=
  if quality_history.length < 2 then false
  else
    let last_two := (lastN 2 quality_history).map (·.overall_quality)
    decide (|lastD last_two - last_two.headD 0| < stabilityThreshold)

/-- `QualityAnalyzer._detect_improvement_saturation`. -/
def detect_improvement_saturation (improvement_history : List ImprovementEntry) : Bool :=
  if improvement_history.length < 2 then false
  else (lastN 2 improvement_history).all fun imp => imp.improvements.length ≤ 1

/-- `QualityAnalyzer._determine_convergence_status`: (converged, reason,
confidence). -/
def determine_convergence_status (analysis : ConvIndicators)
    (current : QualityMetrics) : Bool × String × ℚ :=
  if current.overall_quality ≥ excellentQualityThreshold then
    (true, "Excellent quality achieved", 19 / 20)
  else if indicatorCount analysis ≥ 3 then
    (true, "Multiple convergence indicators detected", 4 / 5)
  else if current.overall_quality ≥ highQualityThreshold ∧ indicatorCount analysis ≥ 2 then
    (true, "High quality with convergence indicators", 17 / 20)
  else if analysis.quality_plateau ∧ analysis.stability_achieved then
    (true, "Quality plateau with stability", 3 / 4)
  else (false, "Convergence not detected", 3 / 5)

/-- `QualityAnalyzer._generate_convergence_recommendation`. -/
def generate_convergence_recommendation (analysis : ConvIndicators)
    (current : QualityMetrics) : String :=
  if current.overall_quality ≥ excellentQualityThreshold then "stop_excellent"
  else if current.overall_quality ≥ highQualityThreshold then
    if analysis.stability_achieved then "stop_good" else "continue_cautiously"
  else if analysis.improvement_saturation ∧ current.overall_quality > 3 / 5 then
    "manual_review"
  else if indicatorCount analysis ≥ 2 then "stop_convergence"
  else "continue"

/-- The extra keys present in `detect_convergence`'s full (≥ 2 entries)
return dict but absent from the insufficient-history dict. -/
structure DecisionExtras where
  current_quality : ℚ
  improvement_rate : ℚ
  analysis_details : ConvIndicators
deriving DecidableEq

/-- `detect_convergence`'s return dict. -/
structure ConvergenceDecision where
  converged : Bool
  reason : String
  confidence : ℚ
  recommendation : String
  extras : Option DecisionExtras
deriving DecidableEq

/-- The `convergence_analysis` dict built inside `detect_convergence` (for
`quality_history` with at least two entries). -/
def convergence_analysis (quality_history : List QualityMetrics)
    (improvement_history : List ImprovementEntry) : ConvIndicators :=
  let current := quality_history.getD (quality_history.length - 1) zeroMetrics
  let previous := quality_history.getD (quality_history.length - 2) zeroMetrics
  let improvement := current.overall_quality - previous.overall_quality
  { quality_plateau := detect_quality_plateau quality_history
    minimal_improvement := decide (improvement < minimalImprovementThreshold)
    high_quality_reached := decide (current.overall_quality ≥ highQualityThreshold)
    stability_achieved := detect_stability quality_history
    improvement_saturation := detect_improvement_saturation improvement_history }

/-- `QualityAnalyzer.detect_convergence`. -/
def detect_convergence (quality_history : List QualityMetrics)
    (improvement_history : List ImprovementEntry) : ConvergenceDecision :=
  if quality_history.length < 2 then
    ⟨false, "Insufficient history", 0, "continue", none⟩
  else
    let current := quality_history.getD (quality_history.length - 1) zeroMetrics
    let previous := quality_history.getD (quality_history.length - 2) zeroMetrics
    let improvement := current.overall_quality - previous.overall_quality
    let analysis := convergence_analysis quality_history improvement_history
    let status := determine_convergence_status analysis current
    let recommendation := generate_convergence_recommendation analysis current
    ⟨status.1, status.2.1, status.2.2, recommendation,
      some ⟨current.overall_quality, improvement, analysis⟩⟩

/-- `ConvergenceDetector`'s mutable state: the two parallel history lists. -/
structure ConvergenceDetector where
  quality_history : List QualityMetrics
  improvement_history : List ImprovementEntry
deriving DecidableEq

/-- A freshly constructed `ConvergenceDetector` (empty histories). -/
def detectorInit : ConvergenceDetector := ⟨[], []⟩

/-- `ConvergenceDetector.add_processing_result`: analyze, append to both
histories, and when the quality history exceeds 10 entries `pop(0)` the
oldest entry of each list. -/
def add_processing_result (sqrtQ : ℚ → ℚ) (d : ConvergenceDetector)
    (text : String) (results : Context) : ConvergenceDetector :=
  let quality_metrics := analyze_comprehensive_quality sqrtQ text (some results)
  let qh := d.quality_history ++ [quality_metrics]
  let ih := d.improvement_history ++
    [⟨results.improvements.getD [], results.agent_results, results.timestamp.getD 0⟩]
  if qh.length > 10 then ⟨qh.drop 1, ih.drop 1⟩ else ⟨qh, ih⟩

/-- `ConvergenceDetector.check_convergence`. -/
def check_convergence (d : ConvergenceDetector) : ConvergenceDecision :=
  detect_convergence d.quality_history d.improvement_history

/-- `ConvergenceDetector.reset_history`. -/
def reset_history (_d : ConvergenceDetector) : ConvergenceDetector := ⟨[], []⟩

/-- `ConvergenceDetector.get_quality_trend`'s return dict; the
insufficient-data branch omits the last three keys. -/
structure TrendResult where
  trend : String
  direction : String
  current_quality : Option ℚ
  quality_range : Option (ℚ × ℚ)
  data_points : Option Nat
deriving DecidableEq

/-- `ConvergenceDetector.get_quality_trend`. -/
def get_quality_trend (d : ConvergenceDetector) : TrendResult :=
  if d.quality_history.length < 2 then
    ⟨"insufficient_data", "unknown", none, none, none⟩
  else
    let recent_qualities := (lastN 3 d.quality_history).map (·.overall_quality)
    let direction :=
      if 2 ≤ recent_qualities.length then
        if lastD recent_qualities >
            recent_qualities.getD (recent_qualities.length - 2) 0 then "improving"
        else if lastD recent_qualities <
            recent_qualities.getD (recent_qualities.length - 2) 0 then "declining"
        else "stable"
      else "unknown"
    ⟨"tracked", direction,
      some (if recent_qualities ≠ [] then lastD recent_qualities else 0),
      some (if recent_qualities ≠ [] then (listMin recent_qualities, listMax recent_qualities)
        else (0, 0)),
      some d.quality_history.length⟩

/-- `MultiPassProcessor`'s configuration: `max_passes` from the
constructor, the two thresholds set in `__init__` (and overridden by
`AdvancedProcessingOptions.create_custom_processor`). -/
structure ProcessorConfig where
  max_passes : Nat
  convergence_threshold : ℚ
  min_quality_threshold : ℚ
deriving DecidableEq

/-- The defaults of `MultiPassProcessor.__init__` (`max_passes=3`,
`convergence_threshold=0.05`, `min_quality_threshold=0.85`). -/
def defaultProcessor : ProcessorConfig := ⟨3, 1 / 20, 17 / 20⟩

/-- What one `coordinator.process_text` call yields, as read by the
processor: `results['corrected_text']`, `results.get('improvements', [])`
and `results.get('final_validation', {}).get('quality_score', 0.0)`. -/
structure PipeResult where
  corrected_text : String
  improvements : List Improvement
  quality_score : ℚ

/-- The per-pass `convergence_metrics` dict. -/
structure ConvMetrics where
  text_similarity : ℚ
  quality_improvement : ℚ
  change_ratio : ℚ
  changes_made : Bool
deriving DecidableEq

/-- `MultiPassProcessor._calculate_convergence_metrics`. The
`change_ratio` branch divides by `len(input_text)` with no emptiness
guard, so for an empty input and a different (hence non-empty) output the
Python code raises `ZeroDivisionError`; that outcome is `none`. -/
def calculate_convergence_metrics (input_text output_text : String)
    (prev_quality curr_quality : ℚ) : Option ConvMetrics :=
  let text_similarity : ℚ :=
    if 0 < input_text.length then
      1 - ((((output_text.length : ℤ) - (input_text.length : ℤ)).natAbs : ℚ) /
        (input_text.length : ℚ))
    else 1
  let quality_improvement : ℚ :=
    if 0 < prev_quality then curr_quality - prev_quality else curr_quality
  let changes_made : Bool := input_text ≠ output_text
  if changes_made ∧ input_text.length = 0 then none
  else
    let change_ratio : ℚ :=
      if changes_made then
        min 1 ((((output_text.length : ℤ) - (input_text.length : ℤ)).natAbs : ℚ) /
          (input_text.length : ℚ))
      else 0
    some ⟨text_similarity, quality_improvement, change_ratio, changes_made⟩

/-- The `RefinementPass` dataclass; `processing_time` (wall clock) is
embedded as `0`. -/
structure RefinementPass where
  pass_number : Nat
  input_text : String
  output_text : String
  improvements : List Improvement
  quality_score : ℚ
  processing_time : ℚ
  convergence_metrics : ConvMetrics
deriving DecidableEq

/-- The reasons returned by `_should_continue_processing`, abstracting the
interpolated message strings of the source. -/
inductive StopReason
  | maxPasses
  | qualityThreshold
  | convergence
  | noChanges
  | continueProcessing
deriving DecidableEq

/-- `MultiPassProcessor._should_continue_processing` (its
`previous_quality` parameter is unused in the source body). -/
def should_continue_processing (proc : ProcessorConfig)
    (current_pass : RefinementPass) (_previous_quality : ℚ)
    (pass_number : Nat) : Bool × StopReason :=
  if pass_number ≥ proc.max_passes then (false, .maxPasses)
  else if current_pass.quality_score ≥ proc.min_quality_threshold then
    (false, .qualityThreshold)
  else if pass_number > 1 ∧
      current_pass.convergence_metrics.quality_improvement < proc.convergence_threshold then
    (false, .convergence)
  else if !current_pass.convergence_metrics.changes_made then (false, .noChanges)
  else (true, .continueProcessing)

/-- The pass loop of `MultiPassProcessor.process_with_multiple_passes`:
`fuel` counts the iterations left in `range(1, max_passes + 1)` and
`pass_num` is the current loop index. Each iteration invokes the pipeline
once, records a pass, and either breaks (per `_should_continue_processing`)
or feeds the corrected text to the next iteration. `none` is the
`ZeroDivisionError` from the metrics computation propagating out. -/
def process_passes (proc : ProcessorConfig) (pipeline : String → PipeResult) :
    Nat → Nat → String → ℚ → Option (List RefinementPass)
  | 0, _, _, _ => some []
  | fuel + 1, pass_num, current_text, previous_quality =>
    let results := pipeline current_text
    match calculate_convergence_metrics current_text results.corrected_text
        previous_quality results.quality_score with
    | none => none
    | some m =>
      let current_pass : RefinementPass :=
        ⟨pass_num, current_text, results.corrected_text, results.improvements,
          results.quality_score, 0, m⟩
      if (should_continue_processing proc current_pass previous_quality pass_num).1 then
        match process_passes proc pipeline fuel (pass_num + 1)
            results.corrected_text results.quality_score with
        | none => none
        | some ps => some (current_pass :: ps)
      else some [current_pass]

/-- `MultiPassProcessor.process_with_multiple_passes`, up to the final
`_compile_multi_pass_results` call: the sequence of recorded passes. -/
def process_with_multiple_passes (proc : ProcessorConfig)
    (pipeline : String → PipeResult) (text : String) : Option (List RefinementPass) :=
  process_passes proc pipeline proc.max_passes 1 text 0

/-- `overall_metrics` of `_compile_multi_pass_results`. -/
structure OverallMetrics where
  total_passes : Nat
  total_time : ℚ
  initial_quality : ℚ
  final_quality : ℚ
  quality_improvement : ℚ
  total_improvements : Nat
  convergence_achieved : Bool
deriving DecidableEq

/-- One `pass_summary` row of `_compile_multi_pass_results`. -/
structure PassSummary where
  pass : Nat
  quality : ℚ
  improvements : Nat
  time : ℚ
  changes_made : Bool
deriving DecidableEq

/-- The dict returned by `_compile_multi_pass_results` (non-error case). -/
structure MultiPassReport where
  original_text : String
  final_text : String
  all_improvements : List Improvement
  overall_metrics : OverallMetrics
  pass_summary : List PassSummary
  passes_detail : List RefinementPass
deriving DecidableEq

/-- The improvement-tagging loop of `_compile_multi_pass_results` as it
acts on one pass: `improvement["pass_number"] = pass_obj.pass_number`
mutates each improvement dict in place, and those dicts are the very
objects held by `pass_obj.improvements`, so the pass record's improvement
list now carries the tag as well. -/
def tagPassImprovements (p : RefinementPass) : RefinementPass :=
  let tag := fun (imp : Improvement) => { imp with pass_number := some p.pass_number }
  { p with improvements := p.improvements.map tag }

/-- `MultiPassProcessor._compile_multi_pass_results`. `none` is the
`{"error": "No passes completed"}` early return. Because the tagging loop
mutates the improvement dicts shared with the pass records, the report's
`passes_detail` (and every other alias of `passes`) holds the tagged
passes. -/
def compile_multi_pass_results (proc : ProcessorConfig)
    (passes : List RefinementPass) (total_time : ℚ) : Option MultiPassReport :=
  match passes with
  | [] => none
  | first_pass :: _ =>
    let tagged := passes.map tagPassImprovements
    let all_improvements := tagged.foldl (fun acc p => acc ++ p.improvements) []
    let final_pass := tagged.getD (tagged.length - 1) (tagPassImprovements first_pass)
    let overall_metrics : OverallMetrics :=
      { total_passes := passes.length
        total_time := total_time
        initial_quality := first_pass.quality_score
        final_quality := final_pass.quality_score
        quality_improvement := final_pass.quality_score - first_pass.quality_score
        total_improvements := all_improvements.length
        convergence_achieved :=
          decide (final_pass.quality_score ≥ proc.min_quality_threshold) }
    let pass_summary := tagged.map fun p =>
      PassSummary.mk p.pass_number p.quality_score p.improvements.length
        p.processing_time p.convergence_metrics.changes_made
    some
      { original_text := first_pass.input_text
        final_text := final_pass.output_text
        all_improvements := all_improvements
        overall_metrics := overall_metrics
        pass_summary := pass_summary
        passes_detail := tagged }

/-- The accumulation applied per call by
`ConvergenceDetector.add_processing_result` to `improvement_history`. -/
def entryOf (results : Context) : ImprovementEntry :=
  ⟨results.improvements.getD [], results.agent_results, results.timestamp.getD 0⟩

/-- A sequence of `add_processing_result` calls on one detector. -/
def record_results (sqrtQ : ℚ → ℚ) (st : ConvergenceDetector)
    (inputs : List (String × Context)) : ConvergenceDetector :=
  inputs.foldl (fun d x => add_processing_result sqrtQ d x.1 x.2) st

/-- Stop-condition chain exactly as the specification states it: (a)
maximum passes, (b) quality threshold, (c) convergence once past pass 1,
(d) no changes, else continue. -/
def stop_chain_spec (proc : ProcessorConfig) (p : RefinementPass)
    (pass_number : Nat) : Bool × StopReason :=
  if pass_number ≥ proc.max_passes then (false, .maxPasses)
  else if p.quality_score ≥ proc.min_quality_threshold then (false, .qualityThreshold)
  else if pass_number > 1 ∧
      p.convergence_metrics.quality_improvement < proc.convergence_threshold then
    (false, .convergence)
  else if p.convergence_metrics.changes_made = false then (false, .noChanges)
  else (true, .continueProcessing)

/-- Each recorded pass reads its input from the given text for the first
pass and from the previous pass's output afterwards. -/
def chainedFrom : String → List RefinementPass → Bool
  | _, [] => true
  | t, p :: ps => (p.input_text == t) && chainedFrom p.output_text ps

/-- Convergence-decision chain exactly as the specification states it,
first match winning, as (converged, confidence). -/
def convergence_chain_spec (current_overall : ℚ) (a : ConvIndicators) : Bool × ℚ :=
  if current_overall ≥ 19 / 20 then (true, 19 / 20)
  else if 3 ≤ indicatorCount a then (true, 4 / 5)
  else if current_overall ≥ 17 / 20 ∧ 2 ≤ indicatorCount a then (true, 17 / 20)
  else if a.quality_plateau ∧ a.stability_achieved then (true, 3 / 4)
  else (false, 3 / 5)

/-- Number of complex-connective patterns matching a sentence. -/
def complexityPatternCount (s : String) : Nat :=
  [searchCI complexStructures1 s, searchCI complexStructures2 s,
    searchCI complexStructures3 s].count true

/-- Per-sentence complexity exactly as the claim states it, with a `×0.7`
band of "20 to 30 words". -/
def sentenceComplexityClaimed (s : String) : ℚ :=
  let n := (pySplit s).length
  (if 30 < n then (1 : ℚ) / 2 else if 20 ≤ n ∧ n ≤ 30 then 7 / 10
    else if n < 5 then 4 / 5 else 1) * (4 / 5) ^ complexityPatternCount s

/-- Mean of the claimed per-sentence penalties. -/
def analyzeSentenceComplexityClaimed (sentences : List String) : ℚ :=
  listMean (sentences.map sentenceComplexityClaimed)

/-- Per-sentence complexity with the `×0.7` band corrected to "more than
20 and at most 30 words", matching the source's `elif len(words) > 20`. -/
def sentenceComplexityAmended (s : String) : ℚ :=
  let n := (pySplit s).length
  (if 30 < n then (1 : ℚ) / 2 else if 20 < n ∧ n ≤ 30 then 7 / 10
    else if n < 5 then 4 / 5 else 1) * (4 / 5) ^ complexityPatternCount s

/-- A sentence of exactly 20 words and no complex connectives. -/
def twentyWordSentence : String := "a a a a a a a a a a a a a a a a a a a a"

/-- A pass record carrying one untagged improvement, for exercising
`_compile_multi_pass_results`. -/
def samplePass : RefinementPass :=
  ⟨1, "a", "b", [⟨none, "fix"⟩], 0, 0, ⟨1, 0, 1, true⟩⟩

/-- The insufficient-history decision dict of `detect_convergence`. -/
def insufficientHistoryDecision : ConvergenceDecision :=
  ⟨false, "Insufficient history", 0, "continue", none⟩

/-- A metrics record whose overall quality sits exactly at the excellent
threshold. -/
def qm95 : QualityMetrics := { zeroMetrics with overall_quality := 19 / 20 }

/-!
Theorems.
-/

/-- C2 counterexample: with an empty input text and a non-empty output
text, `_calculate_convergence_metrics` hits the unguarded
`abs(len(output) - len(input)) / len(input)` of the `change_ratio` branch
and raises `ZeroDivisionError` (embedded as `none`) instead of
substituting a neutral default. -/
theorem change_ratio_raises_on_empty_input :
    calculate_convergence_metrics "" "x" 0 (1 / 2) = none := by
  decide

/-- C2 amended: the per-pass convergence-metric computation never raises
provided the input text is non-empty or the output equals the input, and
then `change_ratio` is `0` when the output equals the input and otherwise
`min(1, |len(out) - len(in)| / len(in))`. -/
theorem convergence_metrics_change_ratio (input output : String) (p c : ℚ)
    (h : input ≠ "" ∨ output = input) :
    (calculate_convergence_metrics input output p c).map (·.change_ratio)
      = some (if output = input then 0 else
          min 1 ((((output.length : ℤ) - (input.length : ℤ)).natAbs : ℚ) /
            (input.length : ℚ))) := by
  unfold calculate_convergence_metrics
  by_cases hio : output = input
  · simp [hio]
  · have hne : input ≠ "" := by
      rcases h with h | h
      · exact h
      · exact absurd h hio
    have hoi : input ≠ output := fun e => hio e.symm
    have hlen : input.length ≠ 0 := by
      intro h0
      exact hne (String.ext (List.length_eq_zero.mp h0))
    simp [hio, hoi, hlen]

/-- C2 witness: the amended statement evaluated at `("ab", "abcd")`. -/
theorem convergence_metrics_change_ratio_witness :
    (calculate_convergence_metrics "ab" "abcd" 0 1).map (·.change_ratio)
      = some (if ("abcd" : String) = "ab" then 0 else
          min 1 (((((("abcd" : String).length) : ℤ) - ((("ab" : String).length) : ℤ)).natAbs : ℚ) /
            ((("ab" : String).length) : ℚ))) :=
  convergence_metrics_change_ratio "ab" "abcd" 0 1 (Or.inl (by decide))

/-- C5 counterexample: a configuration whose `min_quality_threshold` is
`1.5` (outside `(0,1)`) is not rejected: the run proceeds and records one
pass, i.e. the pipeline is invoked. -/
theorem invalid_threshold_config_still_runs :
    (process_with_multiple_passes ⟨1, 1 / 20, 3 / 2⟩ (fun t => ⟨t, [], 0⟩) "hola").map
      List.length = some 1 := by
  decide

/-- C5 amended: no configuration validation occurs. With `max_passes < 1`
the pass loop body never executes, so no passes are recorded and the
pipeline is never invoked (the result does not depend on the pipeline at
all); but out-of-range thresholds are not rejected and the run proceeds. -/
theorem zero_max_passes_never_invokes_pipeline :
    ∀ (ct mq : ℚ) (pipe1 pipe2 : String → PipeResult) (text : String),
      process_with_multiple_passes ⟨0, ct, mq⟩ pipe1 text = some [] ∧
      process_with_multiple_passes ⟨0, ct, mq⟩ pipe1 text
        = process_with_multiple_passes ⟨0, ct, mq⟩ pipe2 text := by
  intro ct mq pipe1 pipe2 text
  exact ⟨rfl, rfl⟩

/-- Each run's recorded passes are chained: pass 1 reads the initial text
and every later pass reads the previous pass's output. -/
theorem process_passes_chained (proc : ProcessorConfig)
    (pipeline : String → PipeResult) :
    ∀ (fuel pass_num : Nat) (text : String) (q : ℚ),
      chainedFrom text ((process_passes proc pipeline fuel pass_num text q).getD [])
        = true := by
  intro fuel
  induction fuel with
  | zero =>
    intro pass_num text q
    simp [process_passes, chainedFrom]
  | succ n ih =>
    intro pass_num text q
    rw [process_passes]
    cases hm : calculate_convergence_metrics text (pipeline text).corrected_text q
        (pipeline text).quality_score with
    | none => simp [chainedFrom]
    | some m =>
      simp only []
      split
      · cases hr : process_passes proc pipeline n (pass_num + 1)
            (pipeline text).corrected_text (pipeline text).quality_score with
        | none => simp [chainedFrom]
        | some ps =>
          have := ih (pass_num + 1) (pipeline text).corrected_text
            (pipeline text).quality_score
          rw [hr] at this
          simp only [Option.getD_some] at this ⊢
          simp [chainedFrom, this]
      · simp [chainedFrom]

/-- C1: the orchestrator's stop decision is exactly the specification's
first-match chain (a) maximum passes, (b) quality threshold, (c)
convergence when `pass_number > 1`, (d) no changes, else continue; and
whenever it continues, the next pass's input text is this pass's output
text (the recorded passes of every run are chained). -/
theorem stop_conditions_first_match :
    (∀ (proc : ProcessorConfig) (p : RefinementPass) (q : ℚ) (n : Nat),
      should_continue_processing proc p q n = stop_chain_spec proc p n) ∧
    (∀ (proc : ProcessorConfig) (pipeline : String → PipeResult) (text : String),
      chainedFrom text
        ((process_with_multiple_passes proc pipeline text).getD []) = true) := by
  constructor
  · intro proc p q n
    unfold should_continue_processing stop_chain_spec
    cases hc : p.convergence_metrics.changes_made <;> simp [hc]
  · intro proc pipeline text
    exact process_passes_chained proc pipeline proc.max_passes 1 text 0

/-- C9 counterexample: on a freshly constructed detector (empty history)
the decision's reason string is `"Insufficient history"`, not the claimed
`"insufficient history"`. -/
theorem insufficient_history_reason_capitalization :
    (check_convergence detectorInit).converged = false ∧
    (check_convergence detectorInit).reason ≠ "insufficient history" := by
  constructor
  · rfl
  · decide

/-- C9 amended: whenever the detector's history holds fewer than 2 entries
— in particular immediately after construction or after `reset_history` —
the convergence decision is exactly `{converged: false, reason:
"Insufficient history", confidence: 0.0, recommendation: continue}` (and
none of the extra keys of the full decision dict). -/
theorem insufficient_history_decision_exact (d : ConvergenceDetector)
    (h : d.quality_history.length < 2) :
    check_convergence d = insufficientHistoryDecision ∧
    (∀ d2 : ConvergenceDetector,
      check_convergence (reset_history d2) = insufficientHistoryDecision) ∧
    check_convergence detectorInit = insufficientHistoryDecision := by
  refine ⟨?_, fun d2 => rfl, rfl⟩
  unfold check_convergence detect_convergence
  rw [if_pos h]
  rfl

/-- C9 witness: the amended statement at a detector holding one entry. -/
theorem insufficient_history_decision_exact_witness :
    check_convergence ⟨[zeroMetrics], []⟩ = insufficientHistoryDecision :=
  (insufficient_history_decision_exact ⟨[zeroMetrics], []⟩ (by decide)).1

/-- C3 counterexample: at a two-entry history whose current overall
quality is `0.95`, rule (1) fires and the code's reason string is
`"Excellent quality achieved"`, not the claimed lowercase
`"excellent quality achieved"`. -/
theorem convergence_reason_capitalization :
    (detect_convergence [zeroMetrics, qm95] []).converged = true ∧
    (detect_convergence [zeroMetrics, qm95] []).reason
      ≠ "excellent quality achieved" := by
  have hget : [zeroMetrics, qm95].getD ([zeroMetrics, qm95].length - 1) zeroMetrics
      = qm95 := by simp
  have hd : (determine_convergence_status
      (convergence_analysis [zeroMetrics, qm95] [])
      qm95).2.1 = "Excellent quality achieved" ∧
      (determine_convergence_status
        (convergence_analysis [zeroMetrics, qm95] []) qm95).1 = true := by
    unfold determine_convergence_status
    rw [if_pos (by norm_num [qm95, zeroMetrics, excellentQualityThreshold])]
    exact ⟨rfl, rfl⟩
  rw [detect_convergence, if_neg (by norm_num)]
  dsimp only
  rw [hget]
  exact ⟨hd.2, by rw [hd.1]; decide⟩

/-- C3 amended: with at least 2 history entries the decision's converged
flag and confidence follow exactly the specification's precedence chain
(0.95 excellent / ≥3 indicators / 0.85 with ≥2 indicators / plateau with
stability / otherwise), and when rule (1) fires the reason is the code's
`"Excellent quality achieved"` (capitalized). -/
theorem convergence_decision_precedence (qh : List QualityMetrics)
    (ih : List ImprovementEntry) (h : 2 ≤ qh.length) :
    ((detect_convergence qh ih).converged, (detect_convergence qh ih).confidence)
      = convergence_chain_spec (qh.getD (qh.length - 1) zeroMetrics).overall_quality
          (convergence_analysis qh ih) ∧
    ((qh.getD (qh.length - 1) zeroMetrics).overall_quality ≥ 19 / 20 →
      (detect_convergence qh ih).reason = "Excellent quality achieved") := by
  have hlt : ¬ qh.length < 2 := by omega
  unfold detect_convergence
  rw [if_neg hlt]
  dsimp only
  constructor
  · unfold determine_convergence_status convergence_chain_spec
      excellentQualityThreshold highQualityThreshold
    split_ifs <;> rfl
  · intro hq
    unfold determine_convergence_status excellentQualityThreshold
    rw [if_pos hq]

/-- C3 witness: the amended statement at the concrete two-entry history
`[zeroMetrics, qm95]`. -/
theorem convergence_decision_precedence_witness :
    (detect_convergence [zeroMetrics, qm95] []).reason
      = "Excellent quality achieved" :=
  (convergence_decision_precedence [zeroMetrics, qm95] [] (by decide)).2
    (by simp [qm95])

/-- C7 counterexample: a single sentence of exactly 20 words (no complex
connectives) gets no length penalty from the code (`elif len(words) > 20`),
so the code's score is `1` while the claimed "20 to 30 words ⇒ ×0.7"
formula yields `0.7`. -/
theorem sentence_complexity_twenty_word_band :
    analyze_sentence_complexity [twentyWordSentence]
      ≠ analyzeSentenceComplexityClaimed [twentyWordSentence] := by
  have h20 : (pySplit twentyWordSentence).length = 20 := by decide
  have hs1 : searchCI complexStructures1 twentyWordSentence = false := by decide
  have hs2 : searchCI complexStructures2 twentyWordSentence = false := by decide
  have hs3 : searchCI complexStructures3 twentyWordSentence = false := by decide
  unfold analyze_sentence_complexity analyzeSentenceComplexityClaimed
    sentenceComplexityOne sentenceComplexityClaimed complexityPatternCount
  simp only [h20, hs1, hs2, hs3, List.map_cons, List.map_nil, if_false]
  norm_num [listMean]

/-- Every sentence's code complexity equals the amended per-sentence
penalty product (length band `> 30`, `> 20 ∧ ≤ 30`, `< 5`, times `0.8` per
matching pattern). -/
theorem sentenceComplexityOne_eq_amended (s : String) :
    sentenceComplexityOne s = sentenceComplexityAmended s := by
  unfold sentenceComplexityOne sentenceComplexityAmended complexityPatternCount
  simp only []
  generalize (pySplit s).length = n
  generalize searchCI complexStructures1 s = b1
  generalize searchCI complexStructures2 s = b2
  generalize searchCI complexStructures3 s = b3
  cases b1 <;> cases b2 <;> cases b3 <;>
    simp [List.count_cons, List.count_nil] <;>
    split_ifs <;> first | omega | norm_num

/-- C7 amended: for every non-empty sentence list, the sentence-complexity
score is the mean over sentences of the product of multiplicative
penalties, with the `×0.7` band corrected to more than 20 and at most 30
words. -/
theorem sentence_complexity_mean_of_penalties (ss : List String) (h : ss ≠ []) :
    analyze_sentence_complexity ss = listMean (ss.map sentenceComplexityAmended) := by
  unfold analyze_sentence_complexity
  rw [if_neg h]
  have hf : sentenceComplexityOne = sentenceComplexityAmended :=
    funext sentenceComplexityOne_eq_amended
  rw [hf]

/-- C7 witness: the amended statement at the one-sentence list `["hola"]`. -/
theorem sentence_complexity_mean_of_penalties_witness :
    analyze_sentence_complexity ["hola"]
      = listMean (["hola"].map sentenceComplexityAmended) :=
  sentence_complexity_mean_of_penalties ["hola"] (by decide)

/-- C8 counterexample: compiling the report from a single pass holding one
untagged improvement leaves `passes_detail` different from the original
pass list — the tagging loop has written `pass_number` into the
improvement dict held by the pass record. -/
theorem compile_mutates_pass_improvements :
    (compile_multi_pass_results defaultProcessor [samplePass] 0).map
      (·.passes_detail) ≠ some [samplePass] := by
  decide

/-- C8 amended: the report-compilation step leaves every direct field of
each pass record unchanged except that each improvement record inside the
pass's `improvements` sequence is mutated in place to carry the
originating `pass_number`; the report's `passes_detail` is exactly the
pass list with those in-place tags applied. -/
theorem compile_tags_improvements_in_place (proc : ProcessorConfig)
    (passes : List RefinementPass) (tt : ℚ) (r : MultiPassReport)
    (h : compile_multi_pass_results proc passes tt = some r) :
    r.passes_detail = passes.map tagPassImprovements ∧
    ∀ p ∈ passes,
      (tagPassImprovements p).pass_number = p.pass_number ∧
      (tagPassImprovements p).input_text = p.input_text ∧
      (tagPassImprovements p).output_text = p.output_text ∧
      (tagPassImprovements p).quality_score = p.quality_score ∧
      (tagPassImprovements p).processing_time = p.processing_time ∧
      (tagPassImprovements p).convergence_metrics = p.convergence_metrics ∧
      (tagPassImprovements p).improvements = p.improvements.map
        (fun imp => { imp with pass_number := some p.pass_number }) := by
  constructor
  · cases passes with
    | nil => simp [compile_multi_pass_results] at h
    | cons p ps =>
      rw [compile_multi_pass_results] at h
      injection h with h2
      rw [← h2]
  · intro p _
    exact ⟨rfl, rfl, rfl, rfl, rfl, rfl, rfl⟩

/-- C8 witness: the amended statement at the single-pass list
`[samplePass]`. -/
theorem compile_tags_improvements_in_place_witness :
    ∃ r, compile_multi_pass_results defaultProcessor [samplePass] 0 = some r ∧
      r.passes_detail = [samplePass].map tagPassImprovements ∧
      (tagPassImprovements samplePass).improvements = samplePass.improvements.map
        (fun imp => { imp with pass_number := some samplePass.pass_number }) :=
  ⟨_, rfl, (compile_tags_improvements_in_place defaultProcessor [samplePass] 0 _ rfl).1,
    ((compile_tags_improvements_in_place defaultProcessor [samplePass] 0 _ rfl).2
      samplePass (List.mem_singleton.mpr rfl)).2.2.2.2.2.2⟩

/-- The analyzer's degenerate-input guard: empty sentence segmentation or
empty tokenization yields the all-zero record. -/
theorem analyze_degenerate (sqrtQ : ℚ → ℚ) (text : String) (ctx : Option Context)
    (h : extract_sentences text = [] ∨ pySplit text = []) :
    analyze_comprehensive_quality sqrtQ text ctx = zeroMetrics := by
  unfold analyze_comprehensive_quality
  rw [if_pos h]

/-- C10: any text whose sentence segmentation or whitespace tokenization
is empty gets the same all-zero `QualityMetrics` as the empty string,
without raising — the degenerate-input default is triggered by empty
segmentation results, not only by the literally empty string. -/
theorem degenerate_segmentation_zero_metrics (sqrtQ : ℚ → ℚ) (text : String)
    (ctx : Option Context)
    (h : extract_sentences text = [] ∨ pySplit text = []) :
    analyze_comprehensive_quality sqrtQ text ctx = zeroMetrics ∧
    analyze_comprehensive_quality sqrtQ text ctx
      = analyze_comprehensive_quality sqrtQ "" ctx := by
  have h0 : analyze_comprehensive_quality sqrtQ "" ctx = zeroMetrics :=
    analyze_degenerate sqrtQ "" ctx (Or.inl (by decide))
  have ht := analyze_degenerate sqrtQ text ctx h
  exact ⟨ht, by rw [ht, h0]⟩

/-- C10 witness: a punctuation-only text (words but no sentences) and a
whitespace-only text (no words) both yield the all-zero record. -/
theorem degenerate_segmentation_zero_metrics_witness :
    analyze_comprehensive_quality (fun _ => 0) "..." none = zeroMetrics ∧
    analyze_comprehensive_quality (fun _ => 0) "   " none = zeroMetrics :=
  ⟨(degenerate_segmentation_zero_metrics (fun _ => 0) "..." none
      (Or.inl (by decide))).1,
   (degenerate_segmentation_zero_metrics (fun _ => 0) "   " none
      (Or.inr (by decide))).1⟩

/-- Mean of a non-empty list of values in `[0,1]` stays in `[0,1]`. -/
theorem listMean_bounds (l : List ℚ) (hne : l ≠ [])
    (hb : ∀ x ∈ l, 0 ≤ x ∧ x ≤ 1) : 0 ≤ listMean l ∧ listMean l ≤ 1 := by
  have hlen : 0 < (l.length : ℚ) := by
    exact_mod_cast List.length_pos.mpr hne
  have hsum0 : 0 ≤ l.sum := List.sum_nonneg fun x hx => (hb x hx).1
  have hsum1 : l.sum ≤ (l.length : ℚ) := by
    calc l.sum ≤ l.length • (1 : ℚ) :=
          List.sum_le_card_nsmul l 1 fun x hx => (hb x hx).2
    _ = (l.length : ℚ) := by simp
  exact ⟨div_nonneg hsum0 hlen.le, by rw [listMean, div_le_one hlen]; exact hsum1⟩

/-- The readability score is clamped to `[0,1]`. -/
theorem calculate_readability_bounds (ss ws : List String) :
    0 ≤ calculate_readability ss ws ∧ calculate_readability ss ws ≤ 1 := by
  unfold calculate_readability
  simp only []
  have hb : ∀ F : ℚ, 0 ≤ (0 ⊔ (100 ⊓ F)) / 100 ∧ (0 ⊔ (100 ⊓ F)) / 100 ≤ 1 := by
    intro F
    constructor
    · exact div_nonneg (le_max_left _ _) (by norm_num)
    · rw [div_le_one (by norm_num : (0 : ℚ) < 100)]
      exact max_le (by norm_num) (min_le_left _ _)
  split_ifs <;> first | exact hb _ | tauto

/-- An active-voice factor `max(0.5, 1 - ratio)` with a non-negative ratio
lies in `[0,1]`. -/
theorem active_voice_factor_bounds (pr : ℚ) (hpr : 0 ≤ pr) :
    0 ≤ max (1 / 2) (1 - pr) ∧ max (1 / 2) (1 - pr) ≤ 1 :=
  ⟨le_trans (by norm_num) (le_max_left _ _), max_le (by norm_num) (by linarith)⟩

/-- `min 1 y` of a non-negative `y` lies in `[0,1]`. -/
theorem min_one_factor_bounds (y : ℚ) (hy : 0 ≤ y) :
    0 ≤ min 1 y ∧ min 1 y ≤ 1 :=
  ⟨le_min (by norm_num) hy, min_le_left _ _⟩

/-- The clarity score is a mean of factors each in `[0,1]`. -/
theorem calculate_clarity_score_bounds (text : String) (ss : List String) :
    0 ≤ calculate_clarity_score text ss ∧ calculate_clarity_score text ss ≤ 1 := by
  unfold calculate_clarity_score
  simp only []
  rw [if_pos (by simp)]
  apply listMean_bounds _ (by simp)
  intro x hx
  rcases List.mem_cons.mp hx with hA | hx2
  · subst hA
    apply active_voice_factor_bounds
    split_ifs with h
    · have hl : (0 : ℚ) < (ss.length : ℚ) := by
        exact_mod_cast List.length_pos.mpr h
      positivity
    · exact le_refl 0
  · rcases List.mem_append.mp hx2 with hB | hC
    · split_ifs at hB <;>
        first
        | (rw [List.mem_singleton] at hB; subst hB; norm_num)
        | simp at hB
    · rw [List.mem_singleton] at hC
      subst hC
      apply min_one_factor_bounds
      have hden : (0 : ℚ) < max 1 ((ss.length : ℚ) / 5) :=
        lt_of_lt_of_le one_pos (le_max_left _ _)
      positivity

/-- The structure score is clamped to `[0,1]`. -/
theorem analyze_text_structure_bounds (text : String) (ss : List String) :
    0 ≤ analyze_text_structure text ss ∧ analyze_text_structure text ss ≤ 1 := by
  unfold analyze_text_structure
  simp only []
  constructor
  · apply le_min (by norm_num)
    split_ifs <;> norm_num
  · exact min_le_left _ _

/-- The body of the coherence bonus stays in `[0,1]` for a non-negative
repetition ratio. -/
theorem coherence_body_bounds (y : ℚ) (hy : 0 ≤ y) :
    0 ≤ min 1 (4 / 5 + min 1 y * (1 / 5)) ∧
      min 1 (4 / 5 + min 1 y * (1 / 5)) ≤ 1 := by
  have h1 : 0 ≤ min 1 y := le_min zero_le_one hy
  exact ⟨le_min (by norm_num) (by linarith), min_le_left _ _⟩

/-- The coherence score lies in `[0,1]`. -/
theorem calculate_coherence_score_bounds (ss : List String) :
    0 ≤ calculate_coherence_score ss ∧ calculate_coherence_score ss ≤ 1 := by
  unfold calculate_coherence_score
  simp only []
  split_ifs with h1 h2
  · norm_num
  · exact coherence_body_bounds _ (by positivity)
  · norm_num

/-- The grammar estimate's corrections branch stays in `[0,1]` for a
non-negative error density. -/
theorem grammar_density_bounds (d : ℚ) (hd : 0 ≤ d) :
    0 ≤ max (3 / 10) (9 / 10 - d * (1 / 10)) ∧
      max (3 / 10) (9 / 10 - d * (1 / 10)) ≤ 1 :=
  ⟨le_trans (by norm_num) (le_max_left _ _), max_le (by norm_num) (by linarith)⟩

/-- The grammar-accuracy estimate lies in `[0,1]` (in fact in
`[0.3, 0.95]`). -/
theorem estimate_grammar_accuracy_bounds (text : String) (ctx : Option Context) :
    0 ≤ estimate_grammar_accuracy text ctx ∧ estimate_grammar_accuracy text ctx ≤ 1 := by
  unfold estimate_grammar_accuracy
  rcases ctx with _ | c
  · norm_num
  · cases har : c.agent_results with
    | none =>
      simp only [har]
      norm_num
    | some ar =>
      simp only [har]
      split_ifs with h
      · apply grammar_density_bounds
        apply div_nonneg (by positivity)
        exact le_trans zero_le_one (le_max_left _ _)
      · norm_num

/-- With all five keys present, the weighted loop computes exactly the
fixed convex combination (total weight is 1). -/
theorem calculate_overall_quality_eq (r c g st coh : ℚ) :
    calculate_overall_quality r c g st coh
      = 1 / 4 * r + 1 / 4 * c + 1 / 5 * g + 3 / 20 * st + 3 / 20 * coh := by
  unfold calculate_overall_quality
  rw [if_pos (by norm_num)]
  have hT : (1 / 4 + 1 / 4 + 1 / 5 + 3 / 20 + 3 / 20 : ℚ) = 1 := by norm_num
  rw [hT, div_one]
  ring

/-- A convex combination of values in `[0,1]` stays in `[0,1]`. -/
theorem calculate_overall_quality_bounds (r c g st coh : ℚ)
    (hr : 0 ≤ r ∧ r ≤ 1) (hc : 0 ≤ c ∧ c ≤ 1) (hg : 0 ≤ g ∧ g ≤ 1)
    (hst : 0 ≤ st ∧ st ≤ 1) (hcoh : 0 ≤ coh ∧ coh ≤ 1) :
    0 ≤ calculate_overall_quality r c g st coh ∧
      calculate_overall_quality r c g st coh ≤ 1 := by
  rw [calculate_overall_quality_eq]
  obtain ⟨h1, h2⟩ := hr
  obtain ⟨h3, h4⟩ := hc
  obtain ⟨h5, h6⟩ := hg
  obtain ⟨h7, h8⟩ := hst
  obtain ⟨h9, h10⟩ := hcoh
  constructor <;> linarith

/-- On non-degenerate input the analyzer returns the record of component
scores verbatim. -/
theorem analyze_nondegenerate (sqrtQ : ℚ → ℚ) (text : String) (ctx : Option Context)
    (h : ¬(extract_sentences text = [] ∨ pySplit text = [])) :
    analyze_comprehensive_quality sqrtQ text ctx =
      { readability_score := calculate_readability (extract_sentences text) (pySplit text)
        sentence_complexity := analyze_sentence_complexity (extract_sentences text)
        vocabulary_complexity := analyze_vocabulary_complexity (pySplit text)
        structure_score := analyze_text_structure text (extract_sentences text)
        clarity_score := calculate_clarity_score text (extract_sentences text)
        coherence_score := calculate_coherence_score (extract_sentences text)
        precision_score := calculate_precision_score text (pySplit text)
        grammar_accuracy := estimate_grammar_accuracy text ctx
        style_consistency := analyze_style_consistency sqrtQ (extract_sentences text)
        seo_optimization := analyze_seo_quality text ctx
        overall_quality := calculate_overall_quality
          (calculate_readability (extract_sentences text) (pySplit text))
          (calculate_clarity_score text (extract_sentences text))
          (estimate_grammar_accuracy text ctx)
          (analyze_text_structure text (extract_sentences text))
          (calculate_coherence_score (extract_sentences text))
        confidence_level := calculate_confidence_level text ctx
        improvement_potential := calculate_improvement_potential
          (calculate_overall_quality
            (calculate_readability (extract_sentences text) (pySplit text))
            (calculate_clarity_score text (extract_sentences text))
            (estimate_grammar_accuracy text ctx)
            (analyze_text_structure text (extract_sentences text))
            (calculate_coherence_score (extract_sentences text))) ctx } := by
  unfold analyze_comprehensive_quality
  rw [if_neg h]

/-- C6: for every input the returned `overall_quality` is exactly the
fixed weighted combination of the record's readability (0.25), clarity
(0.25), grammar (0.20), structure (0.15) and coherence (0.15) fields
(never set independently of them), it always lies in `[0,1]`, and for the
empty string it is exactly `0`. -/
theorem overall_quality_weighted_and_bounded :
    (∀ (sqrtQ : ℚ → ℚ) (text : String) (ctx : Option Context),
      (analyze_comprehensive_quality sqrtQ text ctx).overall_quality
        = 1 / 4 * (analyze_comprehensive_quality sqrtQ text ctx).readability_score
          + 1 / 4 * (analyze_comprehensive_quality sqrtQ text ctx).clarity_score
          + 1 / 5 * (analyze_comprehensive_quality sqrtQ text ctx).grammar_accuracy
          + 3 / 20 * (analyze_comprehensive_quality sqrtQ text ctx).structure_score
          + 3 / 20 * (analyze_comprehensive_quality sqrtQ text ctx).coherence_score) ∧
    (∀ (sqrtQ : ℚ → ℚ) (text : String) (ctx : Option Context),
      0 ≤ (analyze_comprehensive_quality sqrtQ text ctx).overall_quality ∧
        (analyze_comprehensive_quality sqrtQ text ctx).overall_quality ≤ 1) ∧
    (∀ (sqrtQ : ℚ → ℚ) (ctx : Option Context),
      (analyze_comprehensive_quality sqrtQ "" ctx).overall_quality = 0) := by
  refine ⟨?_, ?_, ?_⟩
  · intro sqrtQ text ctx
    by_cases h : extract_sentences text = [] ∨ pySplit text = []
    · rw [analyze_degenerate sqrtQ text ctx h]
      norm_num [zeroMetrics]
    · rw [analyze_nondegenerate sqrtQ text ctx h]
      exact calculate_overall_quality_eq _ _ _ _ _
  · intro sqrtQ text ctx
    by_cases h : extract_sentences text = [] ∨ pySplit text = []
    · rw [analyze_degenerate sqrtQ text ctx h]
      norm_num [zeroMetrics]
    · rw [analyze_nondegenerate sqrtQ text ctx h]
      exact calculate_overall_quality_bounds _ _ _ _ _
        (calculate_readability_bounds _ _)
        (calculate_clarity_score_bounds _ _)
        (estimate_grammar_accuracy_bounds _ _)
        (analyze_text_structure_bounds _ _)
        (calculate_coherence_score_bounds _)
  · intro sqrtQ ctx
    rw [analyze_degenerate sqrtQ "" ctx (Or.inl (by decide))]
    rfl

theorem lastN_of_le {α : Type} (n : Nat) (l : List α) (h : l.length ≤ n) :
    lastN n l = l := by
  unfold lastN
  rw [Nat.sub_eq_zero_of_le h, List.drop_zero]

theorem lastN_append_lastN {α : Type} (n : Nat) (a b : List α) :
    lastN n (lastN n a ++ b) = lastN n (a ++ b) := by
  by_cases h : a.length ≤ n
  · rw [lastN_of_le n a h]
  · push_neg at h
    unfold lastN
    rw [List.length_append, List.length_append, List.length_drop,
      List.drop_append_eq_append_drop, List.drop_append_eq_append_drop,
      List.drop_drop, List.length_drop]
    congr 1
    · congr 1
      omega
    · congr 1
      omega

theorem add_processing_result_eq (sqrtQ : ℚ → ℚ) (st : ConvergenceDetector)
    (text : String) (results : Context)
    (hpar : st.quality_history.length = st.improvement_history.length)
    (hcap : st.quality_history.length ≤ 10) :
    add_processing_result sqrtQ st text results =
      ⟨lastN 10 (st.quality_history
          ++ [analyze_comprehensive_quality sqrtQ text (some results)]),
       lastN 10 (st.improvement_history ++ [entryOf results])⟩ := by
  unfold add_processing_result entryOf
  simp only []
  split_ifs with h
  · rw [List.length_append] at h
    have hq : st.quality_history.length = 10 := by
      simp at h
      omega
    have hi : st.improvement_history.length = 10 := by omega
    unfold lastN
    rw [List.length_append, List.length_append, hq, hi]
    simp
  · rw [List.length_append] at h
    have hq : st.quality_history.length + 1 ≤ 10 := by
      simp at h
      omega
    rw [lastN_of_le, lastN_of_le]
    · rw [List.length_append, ← hpar]
      simpa using hq
    · rw [List.length_append]
      simpa using hq

theorem record_results_spec (sqrtQ : ℚ → ℚ) :
    ∀ (inputs : List (String × Context)) (st : ConvergenceDetector),
      st.quality_history.length = st.improvement_history.length →
      st.quality_history.length ≤ 10 →
      record_results sqrtQ st inputs =
        ⟨lastN 10 (st.quality_history
            ++ inputs.map fun x => analyze_comprehensive_quality sqrtQ x.1 (some x.2)),
         lastN 10 (st.improvement_history ++ inputs.map fun x => entryOf x.2)⟩ := by
  intro inputs
  induction inputs with
  | nil =>
    intro st h1 h2
    have h2i : st.improvement_history.length ≤ 10 := h1 ▸ h2
    simp [record_results, lastN_of_le 10 _ h2, lastN_of_le 10 _ h2i]
  | cons x xs ih =>
    intro st h1 h2
    have hstep := add_processing_result_eq sqrtQ st x.1 x.2 h1 h2
    have hQ : (add_processing_result sqrtQ st x.1 x.2).quality_history.length
        = (add_processing_result sqrtQ st x.1 x.2).improvement_history.length := by
      rw [hstep]
      unfold lastN
      simp only [List.length_drop, List.length_append, List.length_singleton, h1]
    have hC : (add_processing_result sqrtQ st x.1 x.2).quality_history.length ≤ 10 := by
      rw [hstep]
      unfold lastN
      simp only [List.length_drop]
      omega
    have hrec : record_results sqrtQ st (x :: xs)
        = record_results sqrtQ (add_processing_result sqrtQ st x.1 x.2) xs := rfl
    rw [hrec, ih _ hQ hC, hstep]
    simp only [List.map_cons]
    rw [lastN_append_lastN, lastN_append_lastN, List.append_assoc, List.append_assoc]
    simp

/-- C4: after any 11 consecutive `add_processing_result` calls on a
detector whose histories are parallel and within capacity (as they are
from construction onward), the quality history holds exactly the 10 most
recent entries in order, the improvement history has the same length, and
`get_quality_trend` reports 10 data points. -/
theorem history_window_after_eleven (sqrtQ : ℚ → ℚ) (st : ConvergenceDetector)
    (inputs : List (String × Context))
    (hpar : st.quality_history.length = st.improvement_history.length)
    (hcap : st.quality_history.length ≤ 10)
    (h11 : inputs.length = 11) :
    (record_results sqrtQ st inputs).quality_history
      = (inputs.map fun x => analyze_comprehensive_quality sqrtQ x.1 (some x.2)).drop 1 ∧
    (record_results sqrtQ st inputs).improvement_history.length
      = (record_results sqrtQ st inputs).quality_history.length ∧
    (get_quality_trend (record_results sqrtQ st inputs)).data_points = some 10 := by
  have hspec := record_results_spec sqrtQ inputs st hpar hcap
  have hdropQ : lastN 10 (st.quality_history
      ++ inputs.map fun x => analyze_comprehensive_quality sqrtQ x.1 (some x.2))
      = (inputs.map fun x => analyze_comprehensive_quality sqrtQ x.1 (some x.2)).drop 1 := by
    unfold lastN
    rw [List.length_append, List.length_map, h11,
      List.drop_append_eq_append_drop]
    have e0 : st.quality_history.length + 11 - 10 = st.quality_history.length + 1 := by
      omega
    rw [e0, List.drop_eq_nil_of_le (by omega), List.nil_append]
    congr 1
    omega
  have hQ : (record_results sqrtQ st inputs).quality_history
      = (inputs.map fun x => analyze_comprehensive_quality sqrtQ x.1 (some x.2)).drop 1 := by
    rw [hspec]
    exact hdropQ
  have hQlen : (record_results sqrtQ st inputs).quality_history.length = 10 := by
    rw [hQ, List.length_drop, List.length_map, h11]
  have hIlen : (record_results sqrtQ st inputs).improvement_history.length = 10 := by
    rw [hspec]
    unfold lastN
    simp only [List.length_drop, List.length_append, List.length_map, h11, hpar]
    omega
  refine ⟨hQ, by rw [hQlen, hIlen], ?_⟩
  unfold get_quality_trend
  rw [if_neg (by omega)]
  simp only [hQlen]

/-- C4 witness: eleven recordings of the empty text on a fresh detector
leave a 10-entry window. -/
theorem history_window_after_eleven_witness :
    (get_quality_trend (record_results (fun _ => 0) detectorInit
        (List.replicate 11 ("", ⟨none, none, none⟩)))).data_points = some 10 :=
  (history_window_after_eleven (fun _ => 0) detectorInit
    (List.replicate 11 ("", ⟨none, none, none⟩)) rfl (by decide) (by simp)).2.2
